import Mathlib

/-!
A verification development for the ChristmasWishlist application core:
the item de-duplication / merge routines and the claim (purchase-intent)
flows of `app/routes/wishlist.py` and `app/routes/auth.py`, over the data
model of `app/models.py`.

Text values (Python `str`) are modelled as `List Char`; nullable columns as
`Option`; Python `float` prices as `ℚ`; Python `int` quantities as `ℤ`.
Rational constants are written with `mkRat` (e.g. the 0.75 threshold is
`mkRat 3 4`); the float comparisons of the source are modelled as exact
rational comparisons.
-/

/-- Python truthiness of an optional string: `None` and `""` are falsy. -/
def truthyText : Option (List Char) → Bool
  | none => false
  | some s => !s.isEmpty

/-- Python truthiness of an optional float: `None` and `0.0` are falsy. -/
def truthyPrice : Option ℚ → Bool
  | none => false
  | some q => decide (q ≠ 0)

/-- `app/models.py`, `WishlistItem`: one wishlist item row.  `user_id` and
`proxy_wishlist_id` are the two (mutually exclusive) list references; the
`proxy_wishlist_id` column is added by `scripts/migrate_proxy_wishlists.py`
and `user_id` made nullable by `scripts/migrate_user_id_nullable.py`. -/
structure WishlistItem where
  id : Nat
  user_id : Option Nat
  added_by_id : Option Nat
  proxy_wishlist_id : Option Nat
  name : List Char
  url : Option (List Char)
  description : Option (List Char)
  price : Option ℚ
  image_url : Option (List Char)
  quantity : Int
deriving DecidableEq

/-- `app/models.py`, `Purchase`: one claim row (a gift claim on an item). -/
structure Purchase where
  id : Nat
  wishlist_item_id : Nat
  purchased_by_id : Nat
  quantity : Int
  purchased : Bool
  received : Bool
  wrapped : Bool
deriving DecidableEq

/-- The persisted store, restricted to the two tables the verified routes
touch. -/
structure DBState where
  items : List WishlistItem
  purchases : List Purchase
deriving DecidableEq

/-- `app/models.py`, `WishlistItem.total_purchased`: sum of the quantities
of the claims referencing the item. -/
def total_purchased (s : DBState) (itemId : Nat) : Int :=
  ((s.purchases.filter (fun p => decide (p.wishlist_item_id = itemId))).map
    Purchase.quantity).sum

/-- Primary-key lookup (`Model.query.get`). -/
def findItem (s : DBState) (itemId : Nat) : Option WishlistItem :=
  s.items.find? (fun it => decide (it.id = itemId))

/-! ## The `difflib.SequenceMatcher` ratio

`similar_items` calls `SequenceMatcher(None, a, b).ratio()` from the Python
standard library.  The embedding below follows difflib's documented
semantics with no junk: the longest matching block maximises the length,
ties broken by the earliest start in `a` and then the earliest start in
`b`; the total number of matched characters is obtained by recursing on
the pieces left and right of that block; the ratio is twice that total
over the sum of the lengths.  The `autojunk` heuristic is omitted: it only
alters the result when the second string has 200 or more characters, and
every string this development evaluates the ratio on is far shorter. -/

/-- Length of the longest common prefix of two character lists. -/
def commonPrefixLen : List Char → List Char → Nat
  | a :: as, b :: bs => if a = b then commonPrefixLen as bs + 1 else 0
  | _, _ => 0

/-- Longest matching block between `a` and `b` as `(i, j, k)`: `k` maximal
with `a[i:i+k] = b[j:j+k]`, ties broken by least `i`, then least `j`
(difflib `find_longest_match` on the whole windows, no junk). -/
def bestMatch (a b : List Char) : Nat × Nat × Nat :=
  let cands := (List.range a.length).flatMap
    (fun i => (List.range b.length).map
      (fun j => (i, j, commonPrefixLen (a.drop i) (b.drop j))))
  cands.foldl (fun best c => if best.2.2 < c.2.2 then c else best) (0, 0, 0)

/-- Total size of the matching blocks (difflib `get_matching_blocks`),
written with explicit fuel; `a.length + b.length` fuel always suffices
because each recursive call strictly shrinks the window. -/
def matchesTotalFuel : Nat → List Char → List Char → Nat
  | 0, _, _ => 0
  | fuel + 1, a, b =>
    let m := bestMatch a b
    if m.2.2 = 0 then 0
    else
      matchesTotalFuel fuel (a.take m.1) (b.take m.2.1) + m.2.2 +
        matchesTotalFuel fuel (a.drop (m.1 + m.2.2)) (b.drop (m.2.1 + m.2.2))

/-- Total number of matching characters between `a` and `b`. -/
def matchesTotal (a b : List Char) : Nat :=
  matchesTotalFuel (a.length + b.length) a b

/-- `SequenceMatcher(None, a, b).ratio()` = `2.0 * M / T` with `M` the
matched total and `T` the combined length (`mkRat _ 0 = 0` models the
guarded, never-reached `T = 0` case). -/
def matcherScore (a b : List Char) : ℚ :=
  mkRat (2 * matchesTotal a b) (a.length + b.length)

/-! ## Text helpers used by `similar_items` -/

/-- Python `str.lower()` (ASCII letters; every string evaluated here is
ASCII). -/
def lowerChars (s : List Char) : List Char :=
  s.map Char.toLower

/-- `url.lower().rstrip("/")`: lower-case, then remove every trailing
slash. -/
def normUrl (s : List Char) : List Char :=
  ((lowerChars s).reverse.dropWhile (fun c => c = '/')).reverse

/-- Python `str.split()`: split on whitespace runs, dropping empty words. -/
def splitWs (s : List Char) : List (List Char) :=
  ((s.splitOnP Char.isWhitespace).map id).filter (fun w => !w.isEmpty)

/-- The word set of an item name, as built by Method 3 of `similar_items`:
`name.replace(",", "").replace("–", " ").replace("-", " ").split()`,
keeping the words of length ≥ 4, lower-cased, as a set (modelled as a
duplicate-free list).  Note the comma is *deleted*, while the en-dash and
hyphen are replaced by spaces. -/
def wordSet (name : List Char) : List (List Char) :=
  (((splitWs ((name.filter (fun c => !(c = ','))).map
      (fun c => if c = '–' then ' ' else if c = '-' then ' ' else c))).filter
    (fun w => 4 ≤ w.length)).map lowerChars).dedup

/-- Cardinality of the intersection of two word sets (duplicate-free
lists). -/
def interCard (w1 w2 : List (List Char)) : Nat :=
  (w1.filter (fun w => decide (w ∈ w2))).length

/-- Cardinality of the union of two word sets. -/
def unionCard (w1 w2 : List (List Char)) : Nat :=
  (w1 ++ w2).dedup.length

namespace Wishlist

/-- `app/routes/wishlist.py:11`, Method 1 of `similar_items`: both urls
non-empty and equal after lower-casing and stripping trailing slashes. -/
def url_match (item1 item2 : WishlistItem) : Bool :=
  match item1.url, item2.url with
  | some u1, some u2 => !u1.isEmpty && !u2.isEmpty && decide (normUrl u1 = normUrl u2)
  | _, _ => false

/-- `app/routes/wishlist.py:26`, Method 3 of `similar_items`: significant
word overlap.  True when both word sets are non-empty, the Jaccard
similarity is ≥ 0.4 and the intersection has at least 3 words. -/
def word_overlap (name1 name2 : List Char) : Bool :=
  let words1 := wordSet name1
  let words2 := wordSet name2
  if !words1.isEmpty && !words2.isEmpty then
    let i := interCard words1 words2
    let u := unionCard words1 words2
    let jaccard : ℚ := if u = 0 then 0 else mkRat i u
    decide (mkRat 2 5 ≤ jaccard) && decide (3 ≤ i)
  else false

/-- `app/routes/wishlist.py:11`, `similar_items(item1, item2, threshold)`
(the Python default `threshold=0.75` is modelled by passing `mkRat 3 4` at
the call sites that omit the argument). -/
def similar_items (item1 item2 : WishlistItem) (threshold : ℚ) : Bool :=
  if url_match item1 item2 then true
  else if !item1.name.isEmpty && !item2.name.isEmpty then
    if threshold ≤ matcherScore (lowerChars item1.name) (lowerChars item2.name) then true
    else word_overlap item1.name item2.name
  else false

/-- `app/routes/wishlist.py:49` (and, with the same body, `app/routes/auth.py:57`),
the field fill-in half of `merge_items`: copy `description`, `price`,
`image_url`, `url` from `new_item` when `new_item`'s value is truthy and
`existing_item`'s is falsy, and take the larger quantity. -/
def merge_fields (existing_item new_item : WishlistItem) : WishlistItem :=
  { existing_item with
    description :=
      if truthyText new_item.description && !truthyText existing_item.description then
        new_item.description
      else existing_item.description
    price :=
      if truthyPrice new_item.price && !truthyPrice existing_item.price then
        new_item.price
      else existing_item.price
    image_url :=
      if truthyText new_item.image_url && !truthyText existing_item.image_url then
        new_item.image_url
      else existing_item.image_url
    url :=
      if truthyText new_item.url && !truthyText existing_item.url then
        new_item.url
      else existing_item.url
    quantity :=
      if existing_item.quantity < new_item.quantity then new_item.quantity
      else existing_item.quantity }

/-- `app/routes/wishlist.py:49`, `merge_items(existing_item, new_item)` as a
store transformation: fill in `existing_item`'s fields, re-point every
`Purchase` referencing `new_item` to `existing_item`, delete `new_item`. -/
def merge_items (s : DBState) (existing_item new_item : WishlistItem) : DBState :=
  let kept := merge_fields existing_item new_item
  { items :=
      (s.items.map (fun it => if it.id = existing_item.id then kept else it)).filter
        (fun it => decide (it.id ≠ new_item.id))
    purchases :=
      s.purchases.map (fun p =>
        if p.wishlist_item_id = new_item.id then
          { p with wishlist_item_id := existing_item.id }
        else p) }

/-- `app/routes/wishlist.py:80`, the `my_list` query: the owner's items with
custom gifts from others filtered out (`user_id == current_user.id` and
`added_by_id IS NULL OR added_by_id == current_user.id`; the `order_by`
only reorders and is omitted). -/
def my_list_items (s : DBState) (userId : Nat) : List WishlistItem :=
  s.items.filter (fun it =>
    decide (it.user_id = some userId) &&
      (decide (it.added_by_id = none) || decide (it.added_by_id = some userId)))

/-- `app/routes/wishlist.py:94`, the `my_list_table` query (same filter as
`my_list`). -/
def my_list_table_items (s : DBState) (userId : Nat) : List WishlistItem :=
  s.items.filter (fun it =>
    decide (it.user_id = some userId) &&
      (decide (it.added_by_id = none) || decide (it.added_by_id = some userId)))

/-- Outcome of a POST to `/wishlist/claim/<item_id>`. -/
inductive ClaimOutcome
  | notFound
  | ownList
  | fullyClaimed
  | invalidQuantity
  | overQuantity
  | claimed
deriving DecidableEq

/-- Fresh primary key for an inserted claim row. -/
def nextPurchaseId (s : DBState) : Nat :=
  (s.purchases.map Purchase.id).foldr max 0 + 1

/-- The own-list test of `claim_item`:
`item.user_id and item.user_id == current_user.id` (a null or zero
`user_id` is falsy). -/
def isOwnerOf (item : WishlistItem) (actorId : Nat) : Bool :=
  match item.user_id with
  | some u => decide (u ≠ 0) && decide (u = actorId)
  | none => false

/-- `app/routes/wishlist.py:324`, `claim_item` on a POST: reject the list
owner's own claim (`item.user_id` truthy and equal to the actor), then
recompute `remaining = item.quantity - item.total_purchased`; reject when
nothing remains, when the form quantity is missing or below 1
(`DataRequired` and `NumberRange(min=1)`), or when it exceeds `remaining`;
otherwise insert the claim row. -/
def claim_item (s : DBState) (actorId itemId : Nat) (formQuantity : Option Int) :
    ClaimOutcome × DBState :=
  match findItem s itemId with
  | none => (.notFound, s)
  | some item =>
    if isOwnerOf item actorId then
      (.ownList, s)
    else
      let remaining := item.quantity - total_purchased s item.id
      if remaining ≤ 0 then (.fullyClaimed, s)
      else
        match formQuantity with
        | none => (.invalidQuantity, s)
        | some q =>
          if q < 1 then (.invalidQuantity, s)
          else if remaining < q then (.overQuantity, s)
          else
            (.claimed,
              { s with purchases := s.purchases ++
                  [{ id := nextPurchaseId s
                     wishlist_item_id := item.id
                     purchased_by_id := actorId
                     quantity := q
                     purchased := false
                     received := false
                     wrapped := false }] })

/-- Outcome of a POST to `/wishlist/merge-items`. -/
inductive MergeOutcome
  | missingIds
  | notFound
  | differentListError
  | merged
deriving DecidableEq

/-- `app/routes/wishlist.py:708`, `merge_items_manual`: a JSON id that is
absent or 0 is falsy and rejected; both items are fetched; items whose
`user_id` or `proxy_wishlist_id` differ are rejected with a 403 before any
mutation; otherwise `merge_items(target_item, source_item)` runs.  The
handler reads nothing from `current_user` beyond requiring login, so the
acting user is a parameter the result never depends on. -/
def merge_items_manual (s : DBState) (actorId : Nat)
    (source_item_id target_item_id : Option Nat) : MergeOutcome × DBState :=
  match source_item_id, target_item_id with
  | some sid, some tid =>
    if sid = 0 ∨ tid = 0 then (.missingIds, s)
    else
      match findItem s sid, findItem s tid with
      | some source_item, some target_item =>
        if source_item.user_id ≠ target_item.user_id ∨
            source_item.proxy_wishlist_id ≠ target_item.proxy_wishlist_id then
          (.differentListError, s)
        else (.merged, merge_items s target_item source_item)
      | _, _ => (.notFound, s)
  | _, _ => (.missingIds, s)

/-- `app/routes/wishlist.py:139`: the add-item flow's duplicate check calls
`similar_items(item, existing_item)` with the default `threshold=0.75`. -/
def add_flow_similar (item existing_item : WishlistItem) : Bool :=
  similar_items item existing_item (mkRat 3 4)

end Wishlist

namespace Auth

/-- `app/routes/auth.py:19`, Method 1 of the `auth.py` copy of
`similar_items` (textually identical to the `wishlist.py` copy). -/
def url_match (item1 item2 : WishlistItem) : Bool :=
  match item1.url, item2.url with
  | some u1, some u2 => !u1.isEmpty && !u2.isEmpty && decide (normUrl u1 = normUrl u2)
  | _, _ => false

/-- `app/routes/auth.py:34`, Method 3 of the `auth.py` copy of
`similar_items`. -/
def word_overlap (name1 name2 : List Char) : Bool :=
  let words1 := wordSet name1
  let words2 := wordSet name2
  if !words1.isEmpty && !words2.isEmpty then
    let i := interCard words1 words2
    let u := unionCard words1 words2
    let jaccard : ℚ := if u = 0 then 0 else mkRat i u
    decide (mkRat 2 5 ≤ jaccard) && decide (3 ≤ i)
  else false

/-- `app/routes/auth.py:19`, `similar_items(item1, item2, threshold)` -
the registration module's own copy of the predicate. -/
def similar_items (item1 item2 : WishlistItem) (threshold : ℚ) : Bool :=
  if url_match item1 item2 then true
  else if !item1.name.isEmpty && !item2.name.isEmpty then
    if threshold ≤ matcherScore (lowerChars item1.name) (lowerChars item2.name) then true
    else word_overlap item1.name item2.name
  else false

/-- `app/routes/auth.py:122`: the registration-conversion flow's duplicate
check calls `similar_items(proxy_item, existing_item)` with the default
`threshold=0.75` (no explicit threshold is passed anywhere in the
repository). -/
def register_flow_similar (proxy_item existing_item : WishlistItem) : Bool :=
  similar_items proxy_item existing_item (mkRat 3 4)

end Auth

/-- The word set described by the specification's word-overlap sentence:
the name is split on commas, en-dashes and hyphens (and whitespace) into
words, and the lower-cased words of length ≥ 4 are kept as a set.  Stated
for comparison with `wordSet`, which is translated from the code. -/
def wordSetSpec (name : List Char) : List (List Char) :=
  ((((name.splitOnP (fun c =>
        c.isWhitespace || c = ',' || c = '–' || c = '-')).filter
      (fun w => !w.isEmpty)).filter (fun w => 4 ≤ w.length)).map lowerChars).dedup

/-- The word-overlap fallback as the specification describes it: true iff
the Jaccard similarity of the two spec word sets is ≥ 0.4 and their
intersection has at least 3 words.  Stated for comparison with
`Wishlist.word_overlap`. -/
def word_overlap_spec (name1 name2 : List Char) : Bool :=
  let words1 := wordSetSpec name1
  let words2 := wordSetSpec name2
  decide (mkRat 2 5 ≤ mkRat (interCard words1 words2) (unionCard words1 words2)) &&
    decide (3 ≤ interCard words1 words2)

/-- A minimal item on user 1's list: only `id` and `name` vary, every other
column is at its empty default.  Used to build concrete witness states. -/
def mkItem (id : Nat) (name : String) : WishlistItem :=
  { id := id
    user_id := some 1
    added_by_id := none
    proxy_wishlist_id := none
    name := name.data
    url := none
    description := none
    price := none
    image_url := none
    quantity := 1 }

/-! ## C2: the owner's own-list view -/

/-- C2: the owner's own-list view (`my_list`, and identically
`my_list_table`) returns exactly the items of that list satisfying
`added_by_id IS NULL OR added_by_id = owner`, so an item added by any
other user never appears in the owner's view of their own list. -/
theorem c2_owner_view_filter (s : DBState) (ownerId : Nat) (it : WishlistItem) :
    (it ∈ Wishlist.my_list_items s ownerId ↔
      it ∈ s.items ∧ it.user_id = some ownerId ∧
        (it.added_by_id = none ∨ it.added_by_id = some ownerId)) ∧
    (∀ u : Nat, it.added_by_id = some u → u ≠ ownerId →
      it ∉ Wishlist.my_list_items s ownerId) ∧
    Wishlist.my_list_table_items s ownerId = Wishlist.my_list_items s ownerId := by
  refine ⟨?_, ?_, rfl⟩
  · simp [Wishlist.my_list_items, List.mem_filter, and_assoc]
  · intro u hu hne hmem
    rw [Wishlist.my_list_items, List.mem_filter] at hmem
    simp [hu] at hmem
    exact hne hmem.2.2

def c2own : WishlistItem := mkItem 1 "mine"

def c2hidden : WishlistItem := { mkItem 2 "secret" with added_by_id := some 5 }

def c2state : DBState := { items := [c2own, c2hidden], purchases := [] }

/-- C2 witness: a custom gift added by user 5 is absent from owner 1's own
view even though it is on owner 1's list. -/
theorem c2_owner_view_filter_witness :
    c2hidden.added_by_id = some 5 ∧ (5 : Nat) ≠ 1 ∧
      c2hidden ∉ Wishlist.my_list_items c2state 1 :=
  ⟨rfl, by decide, (c2_owner_view_filter c2state 1 c2hidden).2.1 5 rfl (by decide)⟩

/-! ## C5: cross-list manual merge is rejected -/

/-- C5: a manual merge of two items whose `user_id` or `proxy_wishlist_id`
differ is rejected with an invalid-operation error before any mutation:
the store is returned unchanged, for every acting user. -/
theorem c5_cross_list_merge_rejected (s : DBState) (sid tid : Nat)
    (source_item target_item : WishlistItem)
    (hs : findItem s sid = some source_item) (ht : findItem s tid = some target_item)
    (hsid : sid ≠ 0) (htid : tid ≠ 0)
    (hdiff : source_item.user_id ≠ target_item.user_id ∨
      source_item.proxy_wishlist_id ≠ target_item.proxy_wishlist_id) :
    ∀ actorId : Nat,
      Wishlist.merge_items_manual s actorId (some sid) (some tid)
        = (.differentListError, s) := by
  intro actorId
  rw [Wishlist.merge_items_manual]
  rw [if_neg (by simp [hsid, htid])]
  rw [hs, ht]
  exact if_pos hdiff

def c5state : DBState :=
  { items := [mkItem 3 "x", { mkItem 4 "y" with user_id := some 2 }], purchases := [] }

/-- C5 witness: merging item 3 (user 1's list) into item 4 (user 2's list)
is rejected and the store is unchanged. -/
theorem c5_cross_list_merge_rejected_witness :
    Wishlist.merge_items_manual c5state 9 (some 3) (some 4)
      = (.differentListError, c5state) :=
  c5_cross_list_merge_rejected c5state 3 4 (mkItem 3 "x")
    { mkItem 4 "y" with user_id := some 2 } (by decide) (by decide)
    (by decide) (by decide) (by decide) 9

/-! ## C9: self-claim is rejected -/

/-- C9: an actor can never claim an item on their own list: when
`item.user_id` equals the (nonzero) acting user's id, `claim_item`
rejects the attempt and creates no claim, whatever the form quantity and
whoever added the item. -/
theorem c9_self_claim_rejected (s : DBState) (actorId itemId : Nat)
    (formQuantity : Option Int) (item : WishlistItem)
    (hfind : findItem s itemId = some item)
    (hown : item.user_id = some actorId) (hpos : actorId ≠ 0) :
    Wishlist.claim_item s actorId itemId formQuantity = (.ownList, s) := by
  rw [Wishlist.claim_item, hfind]
  simp [Wishlist.isOwnerOf, hown, hpos]

def c9state : DBState :=
  { items := [{ mkItem 7 "thing" with added_by_id := some 3 }], purchases := [] }

/-- C9 witness: owner 1 cannot claim item 7 of their own list even though
user 3 added it. -/
theorem c9_self_claim_rejected_witness :
    Wishlist.claim_item c9state 1 7 (some 1) = (.ownList, c9state) :=
  c9_self_claim_rejected c9state 1 7 (some 1)
    { mkItem 7 "thing" with added_by_id := some 3 } (by decide) rfl (by decide)

/-! ## C10: manual merge checks no permission beyond authentication -/

/-- C10: for two existing items on the same wishlist, the manual merge
endpoint performs the merge for every authenticated actor - the result
does not depend on the acting user at all, so no ownership, adder,
delegate or admin condition is checked. -/
theorem c10_manual_merge_any_actor (s : DBState) (sid tid : Nat)
    (source_item target_item : WishlistItem)
    (hs : findItem s sid = some source_item) (ht : findItem s tid = some target_item)
    (hsid : sid ≠ 0) (htid : tid ≠ 0)
    (huser : source_item.user_id = target_item.user_id)
    (hproxy : source_item.proxy_wishlist_id = target_item.proxy_wishlist_id) :
    ∀ actorId : Nat,
      Wishlist.merge_items_manual s actorId (some sid) (some tid)
        = (.merged, Wishlist.merge_items s target_item source_item) := by
  intro actorId
  rw [Wishlist.merge_items_manual]
  rw [if_neg (by simp [hsid, htid])]
  rw [hs, ht]
  exact if_neg (by simp [huser, hproxy])

def c10state : DBState := { items := [mkItem 3 "x", mkItem 4 "y"], purchases := [] }

/-- C10 witness: user 99, who owns neither list, added neither item, and is
no delegate or admin, successfully merges items 3 and 4 of user 1's
list. -/
theorem c10_manual_merge_any_actor_witness :
    Wishlist.merge_items_manual c10state 99 (some 3) (some 4)
      = (.merged, Wishlist.merge_items c10state (mkItem 4 "y") (mkItem 3 "x")) :=
  c10_manual_merge_any_actor c10state 3 4 (mkItem 3 "x") (mkItem 4 "y")
    (by decide) (by decide) (by decide) (by decide) rfl rfl 99

/-! ## C1: merge preserves the claim total -/

/-- Re-pointing a claim that already references `k` is the identity. -/
lemma repoint_self (p : Purchase) (k : Nat) (h : p.wishlist_item_id = k) :
    { p with wishlist_item_id := k } = p := by
  cases p
  simp_all

/-- After re-pointing every claim of `a` to `k`, the claims referencing `k`
are exactly the original claims of `k` or `a`, re-pointed. -/
lemma filter_map_repoint (ps : List Purchase) (k a : Nat) :
    ((ps.map (fun p =>
        if p.wishlist_item_id = a then { p with wishlist_item_id := k } else p)).filter
      (fun p => decide (p.wishlist_item_id = k)))
    = (ps.filter (fun p =>
        decide (p.wishlist_item_id = k) || decide (p.wishlist_item_id = a))).map
        (fun p => { p with wishlist_item_id := k }) := by
  induction ps with
  | nil => rfl
  | cons p ps ih =>
    by_cases hpa : p.wishlist_item_id = a
    · simp [List.filter_cons, List.map_cons, hpa, ih]
    · by_cases hpk : p.wishlist_item_id = k
      · simp [List.filter_cons, List.map_cons, hpa, hpk, ih, repoint_self p k hpk]
      · simp [List.filter_cons, List.map_cons, hpa, hpk, ih]

/-- Re-pointing does not change quantities. -/
lemma sum_map_quantity_repoint (ps : List Purchase) (k : Nat) :
    ((ps.map (fun p => { p with wishlist_item_id := k })).map Purchase.quantity).sum
      = (ps.map Purchase.quantity).sum := by
  induction ps with
  | nil => rfl
  | cons p ps ih =>
    simp only [List.map_cons, List.sum_cons, ih]
    try congr 1

/-- The quantity total over claims of `k` or `a` splits into the two
separate totals. -/
lemma sum_filter_or (ps : List Purchase) (k a : Nat) (hka : k ≠ a) :
    ((ps.filter (fun p =>
        decide (p.wishlist_item_id = k) || decide (p.wishlist_item_id = a))).map
      Purchase.quantity).sum
    = ((ps.filter (fun p => decide (p.wishlist_item_id = k))).map Purchase.quantity).sum
      + ((ps.filter (fun p => decide (p.wishlist_item_id = a))).map Purchase.quantity).sum := by
  induction ps with
  | nil => rfl
  | cons p ps ih =>
    by_cases hpk : p.wishlist_item_id = k
    · have hpa : ¬ p.wishlist_item_id = a := by rw [hpk]; exact hka
      simp [List.filter_cons, hpk, hpa, hka, ih]
      try ring
    · by_cases hpa : p.wishlist_item_id = a
      · simp [List.filter_cons, hpk, hpa, Ne.symm hka, ih]
        try ring
      · simp [List.filter_cons, hpk, hpa, ih]

/-- C1: `merge_items(keep, absorb)` on two distinct items of the same list
re-points every claim of `absorb` to `keep` keeping quantity, claimant and
progress flags, so the kept item's claims total is exactly the sum of the
two previous totals, and the absorbed item no longer exists. -/
theorem c1_merge_preserves_claim_total (s : DBState) (keep absorb : WishlistItem)
    (hne : keep.id ≠ absorb.id)
    (_hsame : keep.user_id = absorb.user_id ∧
      keep.proxy_wishlist_id = absorb.proxy_wishlist_id) :
    ((Wishlist.merge_items s keep absorb).purchases.filter
        (fun p => decide (p.wishlist_item_id = keep.id)))
      = (s.purchases.filter (fun p =>
          decide (p.wishlist_item_id = keep.id) ||
            decide (p.wishlist_item_id = absorb.id))).map
          (fun p => { p with wishlist_item_id := keep.id }) ∧
    total_purchased (Wishlist.merge_items s keep absorb) keep.id
      = total_purchased s keep.id + total_purchased s absorb.id ∧
    ∀ it ∈ (Wishlist.merge_items s keep absorb).items, it.id ≠ absorb.id := by
  refine ⟨filter_map_repoint s.purchases keep.id absorb.id, ?_, ?_⟩
  · show ((((s.purchases.map (fun p =>
        if p.wishlist_item_id = absorb.id then { p with wishlist_item_id := keep.id }
        else p)).filter (fun p => decide (p.wishlist_item_id = keep.id)))).map
          Purchase.quantity).sum = _
    rw [filter_map_repoint s.purchases keep.id absorb.id]
    rw [sum_map_quantity_repoint]
    exact sum_filter_or s.purchases keep.id absorb.id hne
  · intro it hmem
    rw [Wishlist.merge_items] at hmem
    simp only [List.mem_filter, decide_eq_true_eq] at hmem
    exact hmem.2

def c1keep : WishlistItem := mkItem 1 "kk"

def c1absorb : WishlistItem := mkItem 2 "aa"

def c1state : DBState :=
  { items := [c1keep, c1absorb]
    purchases :=
      [{ id := 10, wishlist_item_id := 1, purchased_by_id := 5, quantity := 2,
         purchased := false, received := false, wrapped := false },
       { id := 11, wishlist_item_id := 2, purchased_by_id := 6, quantity := 3,
         purchased := true, received := false, wrapped := false }] }

/-- C1 witness: with claims of 2 on the kept item and 3 on the absorbed
item, the kept item's claims total 5 after the merge and the absorbed item
is gone. -/
theorem c1_merge_preserves_claim_total_witness :
    c1keep.id ≠ c1absorb.id ∧
    total_purchased (Wishlist.merge_items c1state c1keep c1absorb) c1keep.id
      = total_purchased c1state c1keep.id + total_purchased c1state c1absorb.id ∧
    ∀ it ∈ (Wishlist.merge_items c1state c1keep c1absorb).items, it.id ≠ c1absorb.id :=
  ⟨by decide,
    (c1_merge_preserves_claim_total c1state c1keep c1absorb (by decide) ⟨rfl, rfl⟩).2.1,
    (c1_merge_preserves_claim_total c1state c1keep c1absorb (by decide) ⟨rfl, rfl⟩).2.2⟩

/-! ## C3: claim-quantity validation -/

/-- Appending one claim row adds its quantity to the referenced item's
total and nothing to any other item's total. -/
lemma total_purchased_append (s : DBState) (p : Purchase) (itemId : Nat) :
    total_purchased { s with purchases := s.purchases ++ [p] } itemId
      = total_purchased s itemId
        + (if p.wishlist_item_id = itemId then p.quantity else 0) := by
  by_cases h : p.wishlist_item_id = itemId <;>
    simp [total_purchased, List.filter_append, h]

/-- `claim_item` on a found item and a submitted quantity, written as a
plain decision tree (the `match` steps reduced away). -/
lemma claim_item_eq (s : DBState) (actorId itemId : Nat) (q : Int)
    (item : WishlistItem) (hfind : findItem s itemId = some item) :
    Wishlist.claim_item s actorId itemId (some q) =
      if Wishlist.isOwnerOf item actorId then (.ownList, s)
      else if item.quantity - total_purchased s item.id ≤ 0 then (.fullyClaimed, s)
      else if q < 1 then (.invalidQuantity, s)
      else if item.quantity - total_purchased s item.id < q then (.overQuantity, s)
      else (.claimed,
        { s with purchases := s.purchases ++
            [{ id := Wishlist.nextPurchaseId s
               wishlist_item_id := item.id
               purchased_by_id := actorId
               quantity := q
               purchased := false
               received := false
               wrapped := false }] }) := by
  rw [Wishlist.claim_item, hfind]

/-- C3: a claim attempt of quantity `q` on an existing item succeeds only
when `q` is at most `remaining = item.quantity - total_purchased`
recomputed from the live claim rows; on success the new total is the old
total plus `q` and never exceeds `item.quantity`; an over-quantity attempt
is rejected with the store unchanged. -/
theorem c3_claim_quantity_validation (s : DBState) (actorId itemId : Nat) (q : Int)
    (item : WishlistItem) (hfind : findItem s itemId = some item) :
    ((Wishlist.claim_item s actorId itemId (some q)).1 = .claimed →
      q ≤ item.quantity - total_purchased s item.id ∧
      total_purchased (Wishlist.claim_item s actorId itemId (some q)).2 item.id
        = total_purchased s item.id + q ∧
      total_purchased (Wishlist.claim_item s actorId itemId (some q)).2 item.id
        ≤ item.quantity) ∧
    (item.quantity - total_purchased s item.id < q →
      (Wishlist.claim_item s actorId itemId (some q)).1 ≠ .claimed ∧
      (Wishlist.claim_item s actorId itemId (some q)).2 = s) := by
  rw [claim_item_eq s actorId itemId q item hfind]
  by_cases hown : Wishlist.isOwnerOf item actorId = true
  · rw [if_pos hown]
    exact ⟨fun h => absurd h (by simp), fun _ => ⟨by simp, rfl⟩⟩
  · rw [if_neg hown]
    by_cases hrem : item.quantity - total_purchased s item.id ≤ 0
    · rw [if_pos hrem]
      exact ⟨fun h => absurd h (by simp), fun _ => ⟨by simp, rfl⟩⟩
    · rw [if_neg hrem]
      by_cases hq1 : q < 1
      · rw [if_pos hq1]
        exact ⟨fun h => absurd h (by simp), fun _ => ⟨by simp, rfl⟩⟩
      · rw [if_neg hq1]
        by_cases hover : item.quantity - total_purchased s item.id < q
        · rw [if_pos hover]
          exact ⟨fun h => absurd h (by simp), fun _ => ⟨by simp, rfl⟩⟩
        · rw [if_neg hover]
          constructor
          · intro _
            refine ⟨by omega, ?_, ?_⟩
            · rw [total_purchased_append]
              simp
            · rw [total_purchased_append]
              simp
              omega
          · intro h
            exact absurd h hover

def c3item : WishlistItem := { mkItem 7 "t" with quantity := 2 }

def c3state : DBState :=
  { items := [c3item]
    purchases :=
      [{ id := 1, wishlist_item_id := 7, purchased_by_id := 3, quantity := 2,
         purchased := false, received := false, wrapped := false }] }

/-- C3 witness, the spec's remaining-quantity scenario: item quantity 2
with one claim of quantity 2 leaves remaining 0 recomputed at request
time, so a second claim attempt of quantity 1 is rejected and creates no
claim. -/
theorem c3_claim_quantity_validation_witness :
    findItem c3state 7 = some c3item ∧
    c3item.quantity - total_purchased c3state c3item.id < 1 ∧
    (Wishlist.claim_item c3state 2 7 (some 1)).1 ≠ .claimed ∧
    (Wishlist.claim_item c3state 2 7 (some 1)).2 = c3state :=
  ⟨rfl, by decide,
    ((c3_claim_quantity_validation c3state 2 7 1 c3item rfl).2 (by decide)).1,
    ((c3_claim_quantity_validation c3state 2 7 1 c3item rfl).2 (by decide)).2⟩

/-! ## Rational constants: the thresholds as the source writes them -/

lemma mkRat_three_quarters : (mkRat 3 4 : ℚ) = 3 / 4 := by
  norm_num [mkRat, Rat.normalize]

lemma mkRat_nine_tenths : (mkRat 9 10 : ℚ) = 9 / 10 := by
  norm_num [mkRat, Rat.normalize]

lemma mkRat_two_fifths : (mkRat 2 5 : ℚ) = 2 / 5 := by
  norm_num [mkRat, Rat.normalize]

/-! ## C4: the similarity thresholds at the two call sites -/

def c4a : WishlistItem := mkItem 1 "abcd"

def c4b : WishlistItem := mkItem 2 "abcx"

/-- C4 counterexample: the registration-conversion flow does not use
threshold 0.9 - it accepts the pair ("abcd", "abcx"), whose name ratio is
0.75, which threshold-0.9 similarity rejects. -/
theorem c4_counterexample :
    Auth.register_flow_similar c4a c4b = true ∧
    Auth.similar_items c4a c4b (mkRat 9 10) = false :=
  ⟨by decide, by decide⟩

/-- C4 amended: the name-ratio step uses threshold 0.75 in both the
add/merge-on-add flow and the registration-conversion flow (both call
sites rely on the parameter's default 0.75; the two copies of the
predicate agree at every threshold), and the threshold is exposed as a
parameter - at which the two thresholds would genuinely differ, as the
"abcd"/"abcx" pair shows. -/
theorem c4_amended_thresholds :
    (∀ item existing_item : WishlistItem,
      Wishlist.add_flow_similar item existing_item
        = Wishlist.similar_items item existing_item (mkRat 3 4)) ∧
    (∀ proxy_item existing_item : WishlistItem,
      Auth.register_flow_similar proxy_item existing_item
        = Auth.similar_items proxy_item existing_item (mkRat 3 4)) ∧
    (∀ (item1 item2 : WishlistItem) (t : ℚ),
      Auth.similar_items item1 item2 t = Wishlist.similar_items item1 item2 t) ∧
    Wishlist.similar_items c4a c4b (mkRat 3 4) = true ∧
    Wishlist.similar_items c4a c4b (mkRat 9 10) = false :=
  ⟨fun _ _ => rfl, fun _ _ => rfl, fun _ _ _ => rfl, by decide, by decide⟩

/-! ## C6: the word-overlap fallback -/

lemma interCard_right_nil (w1 : List (List Char)) : interCard w1 [] = 0 := by
  induction w1 with
  | nil => rfl
  | cons w ws ih => simpa [interCard, List.filter_cons] using ih

lemma unionCard_ne_zero (w1 w2 : List (List Char)) (h : w1 ≠ []) :
    unionCard w1 w2 ≠ 0 := by
  simp [unionCard, List.length_eq_zero, List.dedup_eq_nil, List.append_eq_nil, h]

/-- C6 counterexample: the fallback does not split names on commas - it
deletes them.  On the names "alpha,beta gamma delta" and
"alpha beta gamma delta" the description in the claim (splitting on the
comma) yields identical 4-word sets and predicts similarity, but the code
glues "alphabeta" together, shares only 2 words, and answers false. -/
theorem c6_counterexample :
    Wishlist.word_overlap "alpha,beta gamma delta".data "alpha beta gamma delta".data
      = false ∧
    word_overlap_spec "alpha,beta gamma delta".data "alpha beta gamma delta".data
      = true :=
  ⟨by decide, by decide⟩

/-- C6 amended: the fallback removes commas (they are not separators),
replaces en-dashes and hyphens with spaces, splits on whitespace, keeps
lower-cased words of length ≥ 4 as sets, and returns true iff the Jaccard
similarity of those word sets is ≥ 0.4 and the intersection has at least
3 words; Jaccard 0.5 with only 2 shared long words is not similar, while
Jaccard 3/7 ≥ 0.4 with exactly 3 shared words is. -/
theorem c6_amended_word_overlap :
    (∀ name1 name2 : List Char,
      Wishlist.word_overlap name1 name2 = true ↔
        mkRat 2 5 ≤ mkRat (interCard (wordSet name1) (wordSet name2))
            (unionCard (wordSet name1) (wordSet name2)) ∧
          3 ≤ interCard (wordSet name1) (wordSet name2)) ∧
    Wishlist.word_overlap "aaaa bbbb cccc".data "aaaa bbbb dddd".data = false ∧
    Wishlist.word_overlap "aaaa bbbb cccc dddd eeee".data
      "aaaa bbbb cccc ffff gggg".data = true := by
  refine ⟨?_, by decide, by decide⟩
  intro name1 name2
  rw [Wishlist.word_overlap]
  by_cases h1 : (wordSet name1).isEmpty = true
  · have h1' : wordSet name1 = [] := by simpa using h1
    simp [h1, h1', interCard]
  · by_cases h2 : (wordSet name2).isEmpty = true
    · have h2' : wordSet name2 = [] := by simpa using h2
      simp [h1, h2, h2', interCard_right_nil]
    · have h1' : wordSet name1 ≠ [] := by simpa using h1
      have hu := unionCard_ne_zero (wordSet name1) (wordSet name2) h1'
      simp [h1, h2, hu]

/-! ## C7: symmetry and the URL step -/

def c7a : WishlistItem := mkItem 1 "abbb"

def c7b : WishlistItem := mkItem 2 "bbab"

def c7u1 : WishlistItem := { mkItem 3 "u" with url := some "Http://X.com/a/".data }

def c7u2 : WishlistItem := { mkItem 4 "v" with url := some "http://x.com/a".data }

/-- C7 counterexample: the similarity predicate is not symmetric.  With
names "bbab" and "abbb" (no urls) the SequenceMatcher ratio is 0.75 in
one order and 0.5 in the other, so at threshold 0.75 one order is similar
and the other is not. -/
theorem c7_counterexample :
    ¬ (Wishlist.similar_items c7b c7a (mkRat 3 4)
        = Wishlist.similar_items c7a c7b (mkRat 3 4)) := by
  decide

/-- C7 amended: the URL-match step is symmetric and trailing-slash- and
case-insensitive - two items with non-empty URLs equal up to case and
trailing slashes are similar immediately, in both orders and at every
threshold - but the full predicate is not symmetric, because the
name-ratio score depends on argument order. -/
theorem c7_amended_url_step :
    (∀ item1 item2 : WishlistItem,
      Wishlist.url_match item1 item2 = Wishlist.url_match item2 item1) ∧
    (∀ (item1 item2 : WishlistItem) (t : ℚ),
      Wishlist.url_match item1 item2 = true →
        Wishlist.similar_items item1 item2 t = true) ∧
    Wishlist.similar_items c7u1 c7u2 (mkRat 3 4) = true ∧
    Wishlist.similar_items c7u2 c7u1 (mkRat 3 4) = true := by
  refine ⟨?_, ?_, by decide, by decide⟩
  · intro i1 i2
    obtain ⟨id1, uid1, ab1, px1, nm1, url1, d1, p1, im1, q1⟩ := i1
    obtain ⟨id2, uid2, ab2, px2, nm2, url2, d2, p2, im2, q2⟩ := i2
    cases url1 with
    | none =>
      cases url2 with
      | none => rfl
      | some u2 => rfl
    | some u1 =>
      cases url2 with
      | none => rfl
      | some u2 =>
        show (!u1.isEmpty && !u2.isEmpty && decide (normUrl u1 = normUrl u2))
          = (!u2.isEmpty && !u1.isEmpty && decide (normUrl u2 = normUrl u1))
        rw [Bool.and_comm (!u1.isEmpty) (!u2.isEmpty)]
        congr 1
        exact decide_eq_decide.mpr eq_comm
  · intro item1 item2 t h
    rw [Wishlist.similar_items, if_pos h]

/-- C7 witness: an URL pair differing only in case and a trailing slash is
similar immediately, even at a 0.9 threshold. -/
theorem c7_amended_url_step_witness :
    Wishlist.url_match c7u1 c7u2 = true ∧
    Wishlist.similar_items c7u1 c7u2 (mkRat 9 10) = true :=
  ⟨by decide, c7_amended_url_step.2.1 c7u1 c7u2 (mkRat 9 10) (by decide)⟩

/-! ## C8: merge field fill-in -/

def c8keep : WishlistItem := { mkItem 1 "k" with price := some 0 }

def c8absorb : WishlistItem := { mkItem 2 "a" with price := some (mkRat 5 1) }

/-- C8 counterexample: a populated price of 0.0 on the kept item is not
empty or null, yet the merge overwrites it with the absorbed item's
price, because Python truthiness treats 0.0 as falsy. -/
theorem c8_counterexample :
    c8keep.price ≠ none ∧
    (Wishlist.merge_fields c8keep c8absorb).price ≠ c8keep.price :=
  ⟨by decide, by decide⟩

/-- C8 amended: `description`, `price`, `image_url` and `url` are copied
from the absorbed item only when the kept item's value is Python-falsy
(null, the empty string, or - for price - the value 0): a truthy field of
the kept item is never overwritten, and a field that changed was falsy
before the merge. -/
theorem c8_amended_no_truthy_overwrite (keep absorb : WishlistItem) :
    (truthyText keep.description = true →
      (Wishlist.merge_fields keep absorb).description = keep.description) ∧
    (truthyText keep.url = true →
      (Wishlist.merge_fields keep absorb).url = keep.url) ∧
    (truthyText keep.image_url = true →
      (Wishlist.merge_fields keep absorb).image_url = keep.image_url) ∧
    (truthyPrice keep.price = true →
      (Wishlist.merge_fields keep absorb).price = keep.price) ∧
    ((Wishlist.merge_fields keep absorb).description ≠ keep.description →
      truthyText keep.description = false) ∧
    ((Wishlist.merge_fields keep absorb).url ≠ keep.url →
      truthyText keep.url = false) ∧
    ((Wishlist.merge_fields keep absorb).image_url ≠ keep.image_url →
      truthyText keep.image_url = false) ∧
    ((Wishlist.merge_fields keep absorb).price ≠ keep.price →
      truthyPrice keep.price = false) := by
  refine ⟨?_, ?_, ?_, ?_, ?_, ?_, ?_, ?_⟩
  · intro h
    simp [Wishlist.merge_fields, h]
  · intro h
    simp [Wishlist.merge_fields, h]
  · intro h
    simp [Wishlist.merge_fields, h]
  · intro h
    simp [Wishlist.merge_fields, h]
  · intro h
    by_cases hk : truthyText keep.description = true
    · exact absurd (by simp [Wishlist.merge_fields, hk]) h
    · simpa using hk
  · intro h
    by_cases hk : truthyText keep.url = true
    · exact absurd (by simp [Wishlist.merge_fields, hk]) h
    · simpa using hk
  · intro h
    by_cases hk : truthyText keep.image_url = true
    · exact absurd (by simp [Wishlist.merge_fields, hk]) h
    · simpa using hk
  · intro h
    by_cases hk : truthyPrice keep.price = true
    · exact absurd (by simp [Wishlist.merge_fields, hk]) h
    · simpa using hk

def c8keepW : WishlistItem :=
  { mkItem 3 "kw" with description := some "abc".data, price := some (mkRat 2 1) }

def c8absorbW : WishlistItem :=
  { mkItem 4 "aw" with description := some "zzz".data, price := some (mkRat 9 1) }

/-- C8 witness: a non-empty kept description and a non-zero kept price
survive a merge against an absorbed item that populates both. -/
theorem c8_amended_no_truthy_overwrite_witness :
    truthyText c8keepW.description = true ∧
    (Wishlist.merge_fields c8keepW c8absorbW).description = c8keepW.description ∧
    truthyPrice c8keepW.price = true ∧
    (Wishlist.merge_fields c8keepW c8absorbW).price = c8keepW.price :=
  ⟨by decide,
    (c8_amended_no_truthy_overwrite c8keepW c8absorbW).1 (by decide),
    by decide,
    (c8_amended_no_truthy_overwrite c8keepW c8absorbW).2.2.2.1 (by decide)⟩

